import Mathlib

/-!
Verification development for the Tramia dashboard repository.

Shallow embedding of the job / conversation / webhook-log storage layer
(`DatabaseStorage` in the server source, schema in the shared schema module)
and of the HTTP action routes that mutate it
(`POST /api/jobs/:id/{retry,cancel,reassign}`,
`POST /api/conversations/:id/actions` with action types `toggle_ai` and
`mute_until`).

Timestamps are modelled as `Int` (milliseconds); JSON payloads are modelled
as uninterpreted `Option String` values; a SQL table is a `List` of rows.
A nullable column is an `Option`; a `Partial<Insert...>` update object is a
structure of `Option` fields where `none` means "field absent from the
update object" (drizzle skips absent fields) and `some v` means the column
is written with `v`.
-/

namespace Tramia

/-- `job_status` Postgres enum: `["pending", "processing", "completed",
"failed", "cancelled"]` (schema module). -/
inductive JobStatus
  | pending
  | processing
  | completed
  | failed
  | cancelled
deriving DecidableEq, Repr

/-- `agent_type` Postgres enum: `["qualifier", "closer", "scheduler",
"objections", "pooling", "followups"]` (schema module). -/
inductive AgentType
  | qualifier
  | closer
  | scheduler
  | objections
  | pooling
  | followups
deriving DecidableEq, Repr

/-- One row of the `jobs` table (schema module).  `priority` is a nullable
integer column with insert-default 0; `status` is non-null with
insert-default `pending`. -/
structure Job where
  id : String
  orgId : String
  jobType : String
  status : JobStatus
  priority : Option Int
  data : Option String
  result : Option String
  error : Option String
  agentType : Option AgentType
  chatwootConversationId : Option String
  hrChatroomId : Option String
  createdAt : Int
  updatedAt : Int
deriving DecidableEq, Repr

/-- `InsertJob` = the zod insert schema for `jobs`, which omits `id`,
`createdAt`, `updatedAt`.  Optional columns carry their DB defaults when
absent (`status` → `pending`, `priority` → 0, nullable columns → null). -/
structure InsertJob where
  orgId : String
  jobType : String
  status : Option JobStatus := none
  priority : Option Int := none
  data : Option String := none
  result : Option String := none
  error : Option String := none
  agentType : Option AgentType := none
  chatwootConversationId : Option String := none
  hrChatroomId : Option String := none
deriving DecidableEq, Repr

/-- `DatabaseStorage.createJob(data)`: a bare
`db.insert(jobs).values(data).returning()` — inserts one row (DB fills
`id` from `gen_random_uuid()`, timestamps from `now()`, enum/integer
defaults) and returns it.  There is no lookup of other jobs, no status
check and no error path. -/
def createJob (db : List Job) (genId : String) (now : Int) (d : InsertJob) :
    Job × List Job :=
  let j : Job :=
    { id := genId
      orgId := d.orgId
      jobType := d.jobType
      status := d.status.getD .pending
      priority := some (d.priority.getD 0)
      data := d.data
      result := d.result
      error := d.error
      agentType := d.agentType
      chatwootConversationId := d.chatwootConversationId
      hrChatroomId := d.hrChatroomId
      createdAt := now
      updatedAt := now }
  (j, db ++ [j])

/-- `Partial<InsertJob>`: each field may be absent (`none`) or set
(`some v`); for a nullable column the written value is itself an
`Option`. -/
structure JobPatch where
  orgId : Option String := none
  jobType : Option String := none
  status : Option JobStatus := none
  priority : Option (Option Int) := none
  data : Option (Option String) := none
  result : Option (Option String) := none
  error : Option (Option String) := none
  agentType : Option (Option AgentType) := none
  chatwootConversationId : Option (Option String) := none
  hrChatroomId : Option (Option String) := none
deriving DecidableEq, Repr

/-- The `set({ ...data, updatedAt: new Date() })` object of
`DatabaseStorage.updateJob` applied to one row: every supplied field is
written, every absent field keeps its prior value, and `updatedAt` is
always refreshed. -/
def applyJobPatch (j : Job) (p : JobPatch) (now : Int) : Job :=
  { id := j.id
    orgId := p.orgId.getD j.orgId
    jobType := p.jobType.getD j.jobType
    status := p.status.getD j.status
    priority := p.priority.getD j.priority
    data := p.data.getD j.data
    result := p.result.getD j.result
    error := p.error.getD j.error
    agentType := p.agentType.getD j.agentType
    chatwootConversationId := p.chatwootConversationId.getD j.chatwootConversationId
    hrChatroomId := p.hrChatroomId.getD j.hrChatroomId
    createdAt := j.createdAt
    updatedAt := now }

/-- `DatabaseStorage.updateJob(id, data)`:
`db.update(jobs).set({ ...data, updatedAt: new Date() }).where(eq(jobs.id, id)).returning()`
followed by `const [job] = …` — every row whose `id` matches is rewritten,
and the first returned (matching) row is the result.  No status-transition
validation of any kind is performed. -/
def updateJob (db : List Job) (id : String) (p : JobPatch) (now : Int) :
    Option Job × List Job :=
  let db2 := db.map (fun j => if j.id = id then applyJobPatch j p now else j)
  ((db2.filter (fun j => j.id = id)).head?, db2)

/-- `POST /api/jobs/:id/retry` (server routes):
`storage.updateJob(id, { status: "pending" })` — unconditional. -/
def retryJobRoute (db : List Job) (id : String) (now : Int) :
    Option Job × List Job :=
  updateJob db id { status := some .pending } now

/-- `POST /api/jobs/:id/cancel` (server routes):
`storage.updateJob(id, { status: "cancelled" })` — unconditional. -/
def cancelJobRoute (db : List Job) (id : String) (now : Int) :
    Option Job × List Job :=
  updateJob db id { status := some .cancelled } now

/-- `POST /api/jobs/:id/reassign` (server routes):
`storage.updateJob(id, { agentType: agent_type })` — unconditional. -/
def reassignJobRoute (db : List Job) (id : String) (newAgent : AgentType)
    (now : Int) : Option Job × List Job :=
  updateJob db id { agentType := some (some newAgent) } now

/-- One row of the `conversations` table (schema module).  `aiEnabled` is a
nullable boolean column with insert-default `true`; `aiMutedUntil` is a
nullable timestamp. -/
structure Conversation where
  id : String
  orgId : String
  userId : String
  userName : Option String
  senderAccountId : Option String
  campaign : Option String
  aiEnabled : Option Bool
  aiMutedUntil : Option Int
  chatwootConversationId : Option String
  chatwootContactId : Option String
  hrChatroomId : Option String
  lastInteraction : Option Int
  tags : List String
  status : Option String
  createdAt : Int
  updatedAt : Int
deriving DecidableEq, Repr

/-- `Partial<InsertConversation>` (insert schema omits `id`, `createdAt`,
`updatedAt`): each field may be absent or set. -/
structure ConversationPatch where
  orgId : Option String := none
  userId : Option String := none
  userName : Option (Option String) := none
  senderAccountId : Option (Option String) := none
  campaign : Option (Option String) := none
  aiEnabled : Option (Option Bool) := none
  aiMutedUntil : Option (Option Int) := none
  chatwootConversationId : Option (Option String) := none
  chatwootContactId : Option (Option String) := none
  hrChatroomId : Option (Option String) := none
  lastInteraction : Option (Option Int) := none
  tags : Option (List String) := none
  status : Option (Option String) := none
deriving DecidableEq, Repr

/-- The `set({ ...data, updatedAt: new Date() })` object of
`DatabaseStorage.updateConversation` applied to one row. -/
def applyConversationPatch (c : Conversation) (p : ConversationPatch)
    (now : Int) : Conversation :=
  { id := c.id
    orgId := p.orgId.getD c.orgId
    userId := p.userId.getD c.userId
    userName := p.userName.getD c.userName
    senderAccountId := p.senderAccountId.getD c.senderAccountId
    campaign := p.campaign.getD c.campaign
    aiEnabled := p.aiEnabled.getD c.aiEnabled
    aiMutedUntil := p.aiMutedUntil.getD c.aiMutedUntil
    chatwootConversationId := p.chatwootConversationId.getD c.chatwootConversationId
    chatwootContactId := p.chatwootContactId.getD c.chatwootContactId
    hrChatroomId := p.hrChatroomId.getD c.hrChatroomId
    lastInteraction := p.lastInteraction.getD c.lastInteraction
    tags := p.tags.getD c.tags
    status := p.status.getD c.status
    createdAt := c.createdAt
    updatedAt := now }

/-- `DatabaseStorage.getConversation(id)`:
`db.select().from(conversations).where(eq(conversations.id, id))` and the
first row, or `undefined`. -/
def getConversation (db : List Conversation) (id : String) :
    Option Conversation :=
  (db.filter (fun c => c.id = id)).head?

/-- `DatabaseStorage.updateConversation(id, data)`: same shape as
`updateJob` — rewrite matching rows with the supplied fields plus a fresh
`updatedAt`, return the first matching row. -/
def updateConversation (db : List Conversation) (id : String)
    (p : ConversationPatch) (now : Int) : Option Conversation × List Conversation :=
  let db2 := db.map (fun c => if c.id = id then applyConversationPatch c p now else c)
  ((db2.filter (fun c => c.id = id)).head?, db2)

/-- `POST /api/conversations/:id/actions` with `type = "toggle_ai"`
(server routes): `storage.updateConversation(id, { aiEnabled: data.enabled })`.
Nothing else is touched; in particular `aiMutedUntil` is not cleared. -/
def toggleAiAction (db : List Conversation) (id : String) (enabled : Bool)
    (now : Int) : Option Conversation × List Conversation :=
  updateConversation db id { aiEnabled := some (some enabled) } now

/-- `POST /api/conversations/:id/actions` with `type = "mute_until"`
(server routes):
`storage.updateConversation(id, { aiMutedUntil: new Date(data.until) })` —
the request supplies the absolute expiry timestamp `until`. -/
def muteUntilAction (db : List Conversation) (id : String) (untilTs : Int)
    (now : Int) : Option Conversation × List Conversation :=
  updateConversation db id { aiMutedUntil := some (some untilTs) } now

/-- A caller muting for a duration: the spec's `muteFor(id, durationMinutes)`
realised through the source's `mute_until` action by supplying
`until = now + durationMinutes` (in minutes, converted to the model's
millisecond timestamps).  The request/response shape is the routing
layer's concern; the stored effect is `muteUntilAction`. -/
def muteFor (db : List Conversation) (id : String) (durationMinutes : Int)
    (now : Int) : Option Conversation × List Conversation :=
  muteUntilAction db id (now + durationMinutes * 60000) now

/-- The AI-enablement value the code exposes for a conversation: the
`aiEnabled` column of the record returned by `getConversation`, which the
routes forward verbatim and the client renders directly
(`checked={conversation.aiEnabled}`).  No computation involving
`aiMutedUntil` or the current time exists anywhere on this read path. -/
def readAiEnabled (db : List Conversation) (id : String) :
    Option (Option Bool) :=
  (getConversation db id).map (fun c => c.aiEnabled)

/-- The spec's words for `isAiEnabled` on an existing gating state, for
comparison with the source's read path: false if mute-expiry is set and in
the future of the evaluation time, otherwise the stored AI-enabled flag
(a mute-expiry in the past is treated as absent). -/
def isAiEnabledSpec (c : Conversation) (now : Int) : Bool :=
  match c.aiMutedUntil with
  | some t => if now < t then false else c.aiEnabled.getD true
  | none => c.aiEnabled.getD true

/-- One row of the `webhook_logs` table (schema module). -/
structure WebhookLog where
  id : String
  orgId : String
  source : String
  eventId : Option String
  status : String
  payloadJson : Option String
  createdAt : Int
deriving DecidableEq, Repr

/-- JS truthiness of the optional `source` argument of
`DatabaseStorage.getWebhookLogs`: `if (source)` is taken exactly when the
string is present and non-empty. -/
def sourceTruthy : Option String → Bool
  | some s => s ≠ ""
  | none => false

/-- The WHERE conditions of `getWebhookLogs`: `orgId` always, plus the
`source` equality when `if (source)` pushed it. -/
def webhookLogMatches (orgId : String) (source : Option String)
    (w : WebhookLog) : Bool :=
  w.orgId = orgId && (if sourceTruthy source then w.source = source.getD "" else true)

/-- Insertion into a list kept in descending order of `key`. -/
def insertDesc {α : Type} (key : α → Int) (x : α) : List α → List α
  | [] => [x]
  | y :: ys => if key y ≤ key x then x :: y :: ys else y :: insertDesc key x ys

/-- Sorting by descending `key` — the model of a SQL
`ORDER BY … DESC` clause (the order among equal keys is not specified by
SQL; this model fixes one). -/
def sortDesc {α : Type} (key : α → Int) : List α → List α
  | [] => []
  | x :: xs => insertDesc key x (sortDesc key xs)

/-- `DatabaseStorage.getJobs(orgId)`:
`db.select().from(jobs).where(eq(jobs.orgId, orgId)).orderBy(desc(jobs.createdAt))` —
filter on the organization, order by creation time descending.  `priority`
does not occur in the query. -/
def getJobs (db : List Job) (orgId : String) : List Job :=
  sortDesc (fun j => j.createdAt) (db.filter (fun j => j.orgId = orgId))

/-- `DatabaseStorage.getWebhookLogs(orgId, source?, limit = 50)`: filter,
order by `createdAt` descending, `limit`. -/
def getWebhookLogs (db : List WebhookLog) (orgId : String)
    (source : Option String) (limit : Nat := 50) : List WebhookLog :=
  (sortDesc (fun w => w.createdAt) (db.filter (webhookLogMatches orgId source))).take limit

/-- A list is in weakly descending `key` order. -/
def DescSorted {α : Type} (key : α → Int) (l : List α) : Prop :=
  l.Pairwise (fun a b => key b ≤ key a)

/-- A concrete `jobs` row with the schema's column defaults, used as the
base of the concrete test rows below. -/
def baseJob : Job :=
  { id := "j"
    orgId := "org-1"
    jobType := "qualify"
    status := .pending
    priority := some 0
    data := none
    result := none
    error := none
    agentType := none
    chatwootConversationId := none
    hrChatroomId := none
    createdAt := 0
    updatedAt := 0 }

/-- A concrete `conversations` row with the schema's column defaults. -/
def baseConversation : Conversation :=
  { id := "c"
    orgId := "org-1"
    userId := "u-77"
    userName := none
    senderAccountId := none
    campaign := none
    aiEnabled := some true
    aiMutedUntil := none
    chatwootConversationId := none
    chatwootContactId := none
    hrChatroomId := none
    lastInteraction := none
    tags := []
    status := some "active"
    createdAt := 0
    updatedAt := 0 }

/-- A concrete `webhook_logs` row. -/
def baseWebhookLog : WebhookLog :=
  { id := "w"
    orgId := "org-1"
    source := "heyreach"
    eventId := none
    status := "success"
    payloadJson := none
    createdAt := 10 }

/-- A job currently `processing` for conversation "c1". -/
def processingJob : Job :=
  { baseJob with
    id := "p1"
    status := .processing
    chatwootConversationId := some "c1" }

/-- An insert request for a second job of the same conversation "c1". -/
def conflictingInsert : InsertJob :=
  { orgId := "org-1", jobType := "reply", chatwootConversationId := some "c1" }

/-- A job in the terminal `completed` status. -/
def completedJob : Job :=
  { baseJob with id := "jd", status := .completed }

/-- A `failed` job carrying an error detail. -/
def failedJob : Job :=
  { baseJob with id := "jf", status := .failed, error := some "boom" }

/-- A `completed` job with an assigned agent type. -/
def assignedCompletedJob : Job :=
  { baseJob with
    id := "je"
    status := .completed
    agentType := some .qualifier }

/-- A conversation whose AI flag is on but that is muted up to time 1000. -/
def mutedConversation : Conversation :=
  { baseConversation with
    id := "c1"
    aiEnabled := some true
    aiMutedUntil := some 1000 }

/-- A conversation whose AI flag is off and that is muted up to time 1000. -/
def mutedOffConversation : Conversation :=
  { baseConversation with
    id := "c2"
    aiEnabled := some false
    aiMutedUntil := some 1000 }

/-- Priority-5 job created at time 200 for conversation "c1". -/
def jobPrio5 : Job :=
  { baseJob with
    id := "J1"
    priority := some 5
    createdAt := 200
    chatwootConversationId := some "c1" }

/-- Priority-10 job created at time 100 for conversation "c2". -/
def jobPrio10 : Job :=
  { baseJob with
    id := "J2"
    priority := some 10
    createdAt := 100
    chatwootConversationId := some "c2" }

/-! ### Generic facts about `sortDesc` -/

theorem mem_insertDesc {α : Type} (key : α → Int) (x : α) (l : List α) (a : α) :
    a ∈ insertDesc key x l ↔ a = x ∨ a ∈ l := by
  induction l with
  | nil => simp [insertDesc]
  | cons y ys ih =>
    by_cases h : key y ≤ key x
    · simp [insertDesc, h]
    · simp [insertDesc, h, ih]
      tauto

theorem perm_insertDesc {α : Type} (key : α → Int) (x : α) (l : List α) :
    (insertDesc key x l).Perm (x :: l) := by
  induction l with
  | nil => simp [insertDesc]
  | cons y ys ih =>
    by_cases h : key y ≤ key x
    · simp [insertDesc, h]
    · simp only [insertDesc, if_neg h]
      exact (ih.cons y).trans (List.Perm.swap x y ys)

theorem perm_sortDesc {α : Type} (key : α → Int) (l : List α) :
    (sortDesc key l).Perm l := by
  induction l with
  | nil => simp [sortDesc]
  | cons x xs ih =>
    exact (perm_insertDesc key x (sortDesc key xs)).trans (ih.cons x)

theorem mem_sortDesc {α : Type} (key : α → Int) (l : List α) (a : α) :
    a ∈ sortDesc key l ↔ a ∈ l :=
  (perm_sortDesc key l).mem_iff

theorem sorted_insertDesc {α : Type} (key : α → Int) (x : α) (l : List α)
    (h : DescSorted key l) : DescSorted key (insertDesc key x l) := by
  induction l with
  | nil => simp [insertDesc, DescSorted]
  | cons y ys ih =>
    rcases List.pairwise_cons.mp h with ⟨hy, hys⟩
    by_cases hxy : key y ≤ key x
    · simp only [DescSorted, insertDesc, if_pos hxy]
      refine List.pairwise_cons.mpr ⟨?_, h⟩
      intro b hb
      rcases List.mem_cons.mp hb with rfl | hb2
      · exact hxy
      · exact le_trans (hy b hb2) hxy
    · simp only [DescSorted, insertDesc, if_neg hxy]
      refine List.pairwise_cons.mpr ⟨?_, ih hys⟩
      intro b hb
      rcases (mem_insertDesc key x ys b).mp hb with rfl | hb2
      · exact le_of_lt (lt_of_not_le hxy)
      · exact hy b hb2

theorem sorted_sortDesc {α : Type} (key : α → Int) (l : List α) :
    DescSorted key (sortDesc key l) := by
  induction l with
  | nil => simp [sortDesc, DescSorted]
  | cons x xs ih => exact sorted_insertDesc key x (sortDesc key xs) ih

theorem descSorted_take {α : Type} (key : α → Int) (l : List α) (n : Nat)
    (h : DescSorted key l) : DescSorted key (l.take n) :=
  List.Pairwise.sublist (List.take_sublist n l) h

/-! ### Row-level facts about `updateJob` and `updateConversation` -/

theorem updateJob_filter (db : List Job) (id : String) (p : JobPatch)
    (now : Int) :
    ((db.map (fun k => if k.id = id then applyJobPatch k p now else k)).filter
        (fun k => k.id = id)) =
      (db.filter (fun k => k.id = id)).map (fun k => applyJobPatch k p now) := by
  induction db with
  | nil => rfl
  | cons a l ih =>
    have hid : (applyJobPatch a p now).id = a.id := rfl
    by_cases ha : a.id = id
    · simp [ha, hid, ih]
    · simp [ha, hid, ih]

/-- When the table holds exactly one row with the given id (`id` is the
primary key), `updateJob` returns that row with the patch applied and
rewrites only that row. -/
theorem updateJob_found (db : List Job) (id : String) (p : JobPatch)
    (now : Int) (j : Job) (h : db.filter (fun k => k.id = id) = [j]) :
    (updateJob db id p now).1 = some (applyJobPatch j p now) ∧
    (updateJob db id p now).2 =
      db.map (fun k => if k.id = id then applyJobPatch k p now else k) := by
  constructor
  · show ((db.map (fun k => if k.id = id then applyJobPatch k p now else k)).filter
        (fun k => k.id = id)).head? = _
    rw [updateJob_filter, h]
    rfl
  · rfl

theorem updateConversation_filter (db : List Conversation) (id : String)
    (p : ConversationPatch) (now : Int) :
    ((db.map (fun k => if k.id = id then applyConversationPatch k p now else k)).filter
        (fun k => k.id = id)) =
      (db.filter (fun k => k.id = id)).map (fun k => applyConversationPatch k p now) := by
  induction db with
  | nil => rfl
  | cons a l ih =>
    have hid : (applyConversationPatch a p now).id = a.id := rfl
    by_cases ha : a.id = id
    · simp [ha, hid, ih]
    · simp [ha, hid, ih]

/-- Analogue of `updateJob_found` for conversations. -/
theorem updateConversation_found (db : List Conversation) (id : String)
    (p : ConversationPatch) (now : Int) (c : Conversation)
    (h : db.filter (fun k => k.id = id) = [c]) :
    (updateConversation db id p now).1 = some (applyConversationPatch c p now) ∧
    (updateConversation db id p now).2 =
      db.map (fun k => if k.id = id then applyConversationPatch k p now else k) := by
  constructor
  · show ((db.map (fun k => if k.id = id then applyConversationPatch k p now else k)).filter
        (fun k => k.id = id)).head? = _
    rw [updateConversation_filter, h]
    rfl
  · rfl

/-! ### Claims C1–C4: job creation and job action routes -/

/-- Claim C1 counterexample: with a `processing` job for conversation "c1"
already stored, `createJob` for the same conversation does not fail with a
`ConflictError` and does not leave the stored job set unchanged — it
appends a new `pending` job, so the at-most-one-processing invariant is
not enforced at creation time. -/
theorem createJob_conflict_counterexample :
    processingJob.status = JobStatus.processing ∧
    processingJob.chatwootConversationId = conflictingInsert.chatwootConversationId ∧
    (createJob [processingJob] "p2" 100 conflictingInsert).2 ≠ [processingJob] ∧
    (createJob [processingJob] "p2" 100 conflictingInsert).1.status = JobStatus.pending ∧
    (createJob [processingJob] "p2" 100 conflictingInsert).2 =
      [processingJob, (createJob [processingJob] "p2" 100 conflictingInsert).1] := by
  refine ⟨rfl, rfl, by decide, rfl, rfl⟩

/-- Claim C1, amended: `createJob` inserts unconditionally.  Even when a
job for the same conversation is already `processing`, the new job is
created (in `pending` when no status is supplied) and appended to the
stored set; no `ConflictError` path exists. -/
theorem createJob_unconditional_insert
    (db : List Job) (genId : String) (now : Int) (d : InsertJob)
    (_hbusy : ∃ k ∈ db, k.status = JobStatus.processing ∧
      k.chatwootConversationId = d.chatwootConversationId) :
    (createJob db genId now d).1.status = d.status.getD JobStatus.pending ∧
    (createJob db genId now d).2 = db ++ [(createJob db genId now d).1] :=
  ⟨rfl, rfl⟩

/-- Claim C1 witness: `createJob_unconditional_insert` at the concrete
conflicting store. -/
theorem createJob_unconditional_insert_witness :
    (∃ k ∈ [processingJob], k.status = JobStatus.processing ∧
      k.chatwootConversationId = conflictingInsert.chatwootConversationId) ∧
    ((createJob [processingJob] "p2" 100 conflictingInsert).1.status =
        conflictingInsert.status.getD JobStatus.pending ∧
      (createJob [processingJob] "p2" 100 conflictingInsert).2 =
        [processingJob] ++ [(createJob [processingJob] "p2" 100 conflictingInsert).1]) :=
  ⟨⟨processingJob, by decide, by decide, by decide⟩,
    createJob_unconditional_insert [processingJob] "p2" 100 conflictingInsert
      ⟨processingJob, by decide, by decide, by decide⟩⟩

/-- Claim C2 counterexample: the retry route is
`updateJob(id, { status: "pending" })` with no guard.  A `completed` job
is moved to `pending` instead of failing with `InvalidTransition`, and a
`failed` job keeps its error detail instead of having it reset. -/
theorem retry_unguarded_counterexample :
    (retryJobRoute [completedJob] "jd" 100).1 =
      some { completedJob with status := JobStatus.pending, updatedAt := 100 } ∧
    (retryJobRoute [failedJob] "jf" 100).1 =
      some { failedJob with status := JobStatus.pending, updatedAt := 100 } ∧
    failedJob.error = some "boom" := by
  refine ⟨by decide, by decide, rfl⟩

/-- Claim C2, amended: the retry route sets the status to `pending`
whatever the prior status (including `completed`), refreshes `updatedAt`,
and changes nothing else — the error detail is kept as-is, and the `jobs`
schema has no retry-count column, so nothing is incremented; no
`InvalidTransition` failure exists. -/
theorem retry_sets_pending_unconditionally
    (db : List Job) (id : String) (now : Int) (j : Job)
    (h : db.filter (fun k => k.id = id) = [j]) :
    (retryJobRoute db id now).1 =
      some { j with status := JobStatus.pending, updatedAt := now } :=
  (updateJob_found db id { status := some JobStatus.pending } now j h).1

/-- Claim C2 witness: `retry_sets_pending_unconditionally` on the concrete
failed job — the error detail survives the retry. -/
theorem retry_sets_pending_unconditionally_witness :
    ([failedJob].filter (fun k => k.id = "jf") = [failedJob]) ∧
    (retryJobRoute [failedJob] "jf" 100).1 =
      some { failedJob with status := JobStatus.pending, updatedAt := 100 } :=
  ⟨by decide, retry_sets_pending_unconditionally [failedJob] "jf" 100 failedJob (by decide)⟩

/-- Claim C3 counterexample: the cancel route is
`updateJob(id, { status: "cancelled" })` with no guard.  Cancelling a
`completed` job is not a no-op returning the current record — the record
is overwritten to `cancelled`. -/
theorem cancel_overwrites_completed_counterexample :
    (cancelJobRoute [completedJob] "jd" 100).1 ≠ some completedJob ∧
    ((cancelJobRoute [completedJob] "jd" 100).1.map (fun r => r.status)) =
      some JobStatus.cancelled := by
  refine ⟨by decide, by decide⟩

/-- Claim C3, amended: the cancel route sets the status to `cancelled`
whatever the prior status; an already-`completed` job is overwritten
rather than returned unchanged.  Calling cancel twice does yield the same
terminal status `cancelled` both times (only `updatedAt` is refreshed
again). -/
theorem cancel_unconditional_idempotent
    (db : List Job) (id : String) (now now2 : Int) (j : Job)
    (h : db.filter (fun k => k.id = id) = [j]) :
    (cancelJobRoute db id now).1 =
      some { j with status := JobStatus.cancelled, updatedAt := now } ∧
    (cancelJobRoute (cancelJobRoute db id now).2 id now2).1 =
      some { j with status := JobStatus.cancelled, updatedAt := now2 } := by
  obtain ⟨h1, h2⟩ := updateJob_found db id { status := some JobStatus.cancelled } now j h
  refine ⟨h1, ?_⟩
  have hfilter : (cancelJobRoute db id now).2.filter (fun k => k.id = id) =
      [{ j with status := JobStatus.cancelled, updatedAt := now }] := by
    show ((db.map (fun k => if k.id = id then
        applyJobPatch k { status := some JobStatus.cancelled } now else k)).filter
        (fun k => k.id = id)) = _
    rw [updateJob_filter, h]
    rfl
  exact (updateJob_found _ id { status := some JobStatus.cancelled } now2 _ hfilter).1

/-- Claim C3 witness: `cancel_unconditional_idempotent` on the concrete
completed job. -/
theorem cancel_unconditional_idempotent_witness :
    ([completedJob].filter (fun k => k.id = "jd") = [completedJob]) ∧
    ((cancelJobRoute [completedJob] "jd" 100).1 =
      some { completedJob with status := JobStatus.cancelled, updatedAt := 100 } ∧
    (cancelJobRoute (cancelJobRoute [completedJob] "jd" 100).2 "jd" 200).1 =
      some { completedJob with status := JobStatus.cancelled, updatedAt := 200 }) :=
  ⟨by decide, cancel_unconditional_idempotent [completedJob] "jd" 100 200 completedJob (by decide)⟩

/-- Claim C4 counterexample: the reassign route is
`updateJob(id, { agentType: agent_type })` with no guard.  Reassigning a
`completed` job succeeds and rewrites its assigned agent type instead of
being rejected with `InvalidTransition`. -/
theorem reassign_on_completed_counterexample :
    (reassignJobRoute [assignedCompletedJob] "je" AgentType.closer 100).1 =
      some { assignedCompletedJob with agentType := some AgentType.closer, updatedAt := 100 } ∧
    (reassignJobRoute [assignedCompletedJob] "je" AgentType.closer 100).1 ≠
      some assignedCompletedJob ∧
    assignedCompletedJob.status = JobStatus.completed ∧
    assignedCompletedJob.agentType = some AgentType.qualifier := by
  refine ⟨by decide, by decide, rfl, rfl⟩

/-- Claim C4, amended: the reassign route updates the assigned agent type
in every status, including `completed`; no `InvalidTransition` is raised
and all other columns except `updatedAt` are preserved. -/
theorem reassign_unconditional
    (db : List Job) (id : String) (a : AgentType) (now : Int) (j : Job)
    (h : db.filter (fun k => k.id = id) = [j]) :
    (reassignJobRoute db id a now).1 =
      some { j with agentType := some a, updatedAt := now } :=
  (updateJob_found db id { agentType := some (some a) } now j h).1

/-- Claim C4 witness: `reassign_unconditional` on the concrete completed
job. -/
theorem reassign_unconditional_witness :
    ([assignedCompletedJob].filter (fun k => k.id = "je") = [assignedCompletedJob]) ∧
    (reassignJobRoute [assignedCompletedJob] "je" AgentType.closer 100).1 =
      some { assignedCompletedJob with agentType := some AgentType.closer, updatedAt := 100 } :=
  ⟨by decide, reassign_unconditional [assignedCompletedJob] "je" AgentType.closer 100
    assignedCompletedJob (by decide)⟩

/-! ### Claims C5–C7: conversation AI gating -/

/-- Claim C5 counterexample: at evaluation time 500 with a stored
mute-expiry of 1000 (set and in the future), the spec's `isAiEnabled`
yields `false`, but the code's read path (`getConversation` forwarded
verbatim) yields the stored flag `true` — no read-time mute check exists. -/
theorem readAiEnabled_ignores_mute_counterexample :
    readAiEnabled [mutedConversation] "c1" = some (some true) ∧
    mutedConversation.aiMutedUntil = some 1000 ∧ (500 : Int) < 1000 ∧
    isAiEnabledSpec mutedConversation 500 = false := by
  refine ⟨rfl, rfl, by decide, rfl⟩

/-- Claim C5, amended: the code's AI-enablement read returns the stored
`aiEnabled` column of the conversation record unchanged, for every
evaluation time and whatever the stored mute-expiry — the mute window is
stored but never consulted on the read path. -/
theorem readAiEnabled_is_stored_flag
    (db : List Conversation) (id : String) (c : Conversation)
    (h : getConversation db id = some c) :
    c ∈ db ∧ c.id = id ∧ readAiEnabled db id = some c.aiEnabled := by
  have hmem : c ∈ db.filter (fun k => k.id = id) := by
    cases hf : db.filter (fun k => k.id = id) with
    | nil =>
      rw [getConversation, hf] at h
      cases h
    | cons x xs =>
      rw [getConversation, hf] at h
      have hx : x = c := by simpa using h
      subst hx
      exact hf ▸ List.mem_cons_self x xs
  have h2 := List.mem_filter.mp hmem
  refine ⟨h2.1, by simpa using h2.2, ?_⟩
  simp [readAiEnabled, h]

/-- Claim C5 witness: `readAiEnabled_is_stored_flag` on the concrete muted
conversation. -/
theorem readAiEnabled_is_stored_flag_witness :
    (getConversation [mutedConversation] "c1" = some mutedConversation) ∧
    (mutedConversation ∈ [mutedConversation] ∧ mutedConversation.id = "c1" ∧
      readAiEnabled [mutedConversation] "c1" = some (some true)) :=
  ⟨by decide, readAiEnabled_is_stored_flag [mutedConversation] "c1" mutedConversation (by decide)⟩

/-- Claim C6: the mute action writes only the mute-expiry — realised as
`mute_until` with `until = now + durationMinutes` (the request shape is
the routing layer's concern) — and every other gating-state column, in
particular the stored AI-enabled flag, is identical before and after.
The bookkeeping column `updatedAt` is refreshed, as by every
`updateConversation` call. -/
theorem muteFor_sets_expiry_preserves_flag
    (db : List Conversation) (id : String) (d now : Int) (c : Conversation)
    (h : db.filter (fun k => k.id = id) = [c]) :
    ∃ r, (muteFor db id d now).1 = some r ∧
      r.aiMutedUntil = some (now + d * 60000) ∧
      r.aiEnabled = c.aiEnabled ∧
      r.id = c.id ∧ r.orgId = c.orgId ∧ r.userId = c.userId ∧
      r.userName = c.userName ∧ r.senderAccountId = c.senderAccountId ∧
      r.campaign = c.campaign ∧
      r.chatwootConversationId = c.chatwootConversationId ∧
      r.chatwootContactId = c.chatwootContactId ∧
      r.hrChatroomId = c.hrChatroomId ∧
      r.lastInteraction = c.lastInteraction ∧
      r.tags = c.tags ∧ r.status = c.status ∧
      r.createdAt = c.createdAt ∧ r.updatedAt = now := by
  obtain ⟨h1, h2⟩ := updateConversation_found db id
    { aiMutedUntil := some (some (now + d * 60000)) } now c h
  exact ⟨_, h1, rfl, rfl, rfl, rfl, rfl, rfl, rfl, rfl, rfl, rfl, rfl, rfl,
    rfl, rfl, rfl, rfl⟩

/-- Claim C6 witness: `muteFor_sets_expiry_preserves_flag` on the concrete
conversation whose flag is `false` — the flag stays `false` through the
mute. -/
theorem muteFor_sets_expiry_preserves_flag_witness :
    ([mutedOffConversation].filter (fun k => k.id = "c2") = [mutedOffConversation]) ∧
    (∃ r, (muteFor [mutedOffConversation] "c2" 10 500).1 = some r ∧
      r.aiMutedUntil = some (500 + 10 * 60000) ∧
      r.aiEnabled = some false ∧
      r.id = "c2" ∧ r.orgId = "org-1" ∧ r.userId = "u-77" ∧
      r.userName = none ∧ r.senderAccountId = none ∧
      r.campaign = none ∧
      r.chatwootConversationId = none ∧
      r.chatwootContactId = none ∧
      r.hrChatroomId = none ∧
      r.lastInteraction = none ∧
      r.tags = [] ∧ r.status = some "active" ∧
      r.createdAt = 0 ∧ r.updatedAt = 500) :=
  ⟨by decide, muteFor_sets_expiry_preserves_flag [mutedOffConversation] "c2" 10 500
    mutedOffConversation (by decide)⟩

/-- Claim C7 counterexample: `toggle_ai` with `enabled = true` at time 500
on a conversation muted until 1000 leaves the mute-expiry at 1000 — still
in the future — instead of clearing the mute window. -/
theorem toggleAi_keeps_mute_counterexample :
    ((toggleAiAction [mutedOffConversation] "c2" true 500).1.map
        (fun r => (r.aiEnabled, r.aiMutedUntil))) = some (some true, some 1000) ∧
    (500 : Int) < 1000 := by
  refine ⟨by decide, by decide⟩

/-- Claim C7, amended: the `toggle_ai` action writes only the `aiEnabled`
flag (plus the bookkeeping `updatedAt`); it does not clear the mute
window, so a mute-expiry in the future persists after explicitly
re-enabling. -/
theorem toggleAi_sets_flag_only
    (db : List Conversation) (id : String) (e : Bool) (now : Int)
    (c : Conversation) (h : db.filter (fun k => k.id = id) = [c]) :
    (toggleAiAction db id e now).1 =
      some { c with aiEnabled := some e, updatedAt := now } :=
  (updateConversation_found db id { aiEnabled := some (some e) } now c h).1

/-- Claim C7 witness: `toggleAi_sets_flag_only` on the concrete muted
conversation — `aiMutedUntil` survives the re-enable. -/
theorem toggleAi_sets_flag_only_witness :
    ([mutedOffConversation].filter (fun k => k.id = "c2") = [mutedOffConversation]) ∧
    (toggleAiAction [mutedOffConversation] "c2" true 500).1 =
      some { mutedOffConversation with aiEnabled := some true, updatedAt := 500 } :=
  ⟨by decide, toggleAi_sets_flag_only [mutedOffConversation] "c2" true 500
    mutedOffConversation (by decide)⟩

/-! ### Claim C8: job listing order -/

/-- Claim C8 counterexample: two jobs of the same organization, one of
priority 5 created at time 200 and one of priority 10 created at time
100.  `getJobs` lists the priority-5 job first — the query orders by
`createdAt` descending only, so the higher-priority job is *not* listed
first. -/
theorem getJobs_ignores_priority_counterexample :
    jobPrio5.priority = some 5 ∧ jobPrio10.priority = some 10 ∧
    jobPrio5.orgId = "org-1" ∧ jobPrio10.orgId = "org-1" ∧
    getJobs [jobPrio5, jobPrio10] "org-1" = [jobPrio5, jobPrio10] := by
  refine ⟨rfl, rfl, rfl, rfl, by decide⟩

/-- Claim C8, amended: `getJobs` returns exactly the organization's jobs
(a permutation of the orgId-filtered table) ordered by creation time
descending; the priority column does not influence the order. -/
theorem getJobs_createdAt_desc (db : List Job) (orgId : String) :
    (getJobs db orgId).Perm (db.filter (fun j => j.orgId = orgId)) ∧
    DescSorted (fun j => j.createdAt) (getJobs db orgId) ∧
    ∀ j ∈ getJobs db orgId, j.orgId = orgId := by
  refine ⟨perm_sortDesc _ _, sorted_sortDesc _ _, ?_⟩
  intro j hj
  have hmem : j ∈ db.filter (fun k => k.orgId = orgId) :=
    (mem_sortDesc _ _ j).mp hj
  exact of_decide_eq_true (List.mem_filter.mp hmem).2

/-! ### Claim C9: updateJob frame -/

/-- Claim C9: for an existing job id (the id being the primary key, the
table holds exactly one row with it), `updateJob` returns the row with
exactly the supplied fields written and `updatedAt` refreshed; every
column not named in the patch keeps its prior value, no status-transition
validation is performed (whatever the prior status, a requested status is
written as-is), and rows with other ids are untouched. -/
theorem updateJob_writes_supplied_fields_only
    (db : List Job) (id : String) (p : JobPatch) (now : Int) (j : Job)
    (h : db.filter (fun k => k.id = id) = [j]) :
    ∃ r, (updateJob db id p now).1 = some r ∧
      r.id = j.id ∧
      r.orgId = p.orgId.getD j.orgId ∧
      r.jobType = p.jobType.getD j.jobType ∧
      r.status = p.status.getD j.status ∧
      r.priority = p.priority.getD j.priority ∧
      r.data = p.data.getD j.data ∧
      r.result = p.result.getD j.result ∧
      r.error = p.error.getD j.error ∧
      r.agentType = p.agentType.getD j.agentType ∧
      r.chatwootConversationId = p.chatwootConversationId.getD j.chatwootConversationId ∧
      r.hrChatroomId = p.hrChatroomId.getD j.hrChatroomId ∧
      r.createdAt = j.createdAt ∧
      r.updatedAt = now ∧
      (∀ s, p.status = some s → r.status = s) ∧
      (∀ k ∈ db, k.id ≠ id → k ∈ (updateJob db id p now).2) := by
  obtain ⟨h1, h2⟩ := updateJob_found db id p now j h
  refine ⟨applyJobPatch j p now, h1, rfl, rfl, rfl, rfl, rfl, rfl, rfl, rfl,
    rfl, rfl, rfl, rfl, rfl, ?_, ?_⟩
  · intro s hs
    simp [applyJobPatch, hs]
  · intro k hk hne
    rw [h2]
    exact List.mem_map.mpr ⟨k, hk, if_neg hne⟩

/-- Claim C9 witness: `updateJob_writes_supplied_fields_only` on a
single-row table, requesting only a status change to `processing`. -/
theorem updateJob_writes_supplied_fields_only_witness :
    ([baseJob].filter (fun k => k.id = "j") = [baseJob]) ∧
    (∃ r, (updateJob [baseJob] "j" { status := some JobStatus.processing } 5).1 = some r ∧
      r.id = "j" ∧
      r.orgId = "org-1" ∧
      r.jobType = "qualify" ∧
      r.status = JobStatus.processing ∧
      r.priority = some 0 ∧
      r.data = none ∧
      r.result = none ∧
      r.error = none ∧
      r.agentType = none ∧
      r.chatwootConversationId = none ∧
      r.hrChatroomId = none ∧
      r.createdAt = 0 ∧
      r.updatedAt = 5 ∧
      (∀ s, some JobStatus.processing = some s → r.status = s) ∧
      (∀ k ∈ [baseJob], k.id ≠ "j" →
        k ∈ (updateJob [baseJob] "j" { status := some JobStatus.processing } 5).2)) :=
  ⟨by decide, updateJob_writes_supplied_fields_only [baseJob] "j"
    { status := some JobStatus.processing } 5 baseJob (by decide)⟩

/-! ### Claim C10: webhook log listing -/

/-- Claim C10 counterexample: `if (source)` uses JS truthiness, so a
provided empty-string source is treated as absent — the stored log whose
source is "heyreach" is returned for the query source `""`, violating
"every returned record carries exactly the provided source". -/
theorem getWebhookLogs_empty_source_counterexample :
    getWebhookLogs [baseWebhookLog] "org-1" (some "") 50 = [baseWebhookLog] ∧
    baseWebhookLog.source = "heyreach" := by
  refine ⟨by decide, rfl⟩

/-- Claim C10, amended: `getWebhookLogs` returns at most `limit` records
(the route defaults the argument to 50), every returned record belongs to
the table, carries the given orgId and, when a *non-empty* source is
provided, exactly that source (an empty-string source is treated as
absent by JS truthiness); the result is ordered by creation timestamp
descending. -/
theorem getWebhookLogs_filter_order_limit
    (db : List WebhookLog) (orgId : String) (source : Option String)
    (limit : Nat) :
    (getWebhookLogs db orgId source limit).length ≤ limit ∧
    DescSorted (fun w => w.createdAt) (getWebhookLogs db orgId source limit) ∧
    ∀ w ∈ getWebhookLogs db orgId source limit,
      w ∈ db ∧ w.orgId = orgId ∧
      ∀ s, source = some s → s ≠ "" → w.source = s := by
  refine ⟨?_, ?_, ?_⟩
  · exact List.length_take_le _ _
  · exact descSorted_take _ _ _ (sorted_sortDesc _ _)
  · intro w hw
    have h1 : w ∈ sortDesc (fun v => v.createdAt)
        (db.filter (webhookLogMatches orgId source)) :=
      List.mem_of_mem_take hw
    have h2 : w ∈ db.filter (webhookLogMatches orgId source) :=
      (mem_sortDesc _ _ w).mp h1
    obtain ⟨hdb, hmatch⟩ := List.mem_filter.mp h2
    obtain ⟨horg, hsrc⟩ := (Bool.and_eq_true _ _).mp hmatch
    refine ⟨hdb, of_decide_eq_true horg, ?_⟩
    intro s hs hne
    rw [hs] at hsrc
    have htr : sourceTruthy (some s) = true := by
      simp [sourceTruthy, hne]
    rw [if_pos htr] at hsrc
    simpa using of_decide_eq_true hsrc

end Tramia
